import Mathlib

/-!
Shallow embedding of `src/pages/AdminMenu.tsx` (sabrosura-menu admin page).

The page is a single React component.  We model its state (`items`,
`loading`, `selectedItem`, `isEditing`) as a record, the browser's local
storage value for the key `dev_admin_authenticated` as an `Option String`,
and each handler (`checkAuth`, `fetchMenuItems`, `handleUpdateItem`,
`handleDeleteItem`, `signOut`) as a pure function from the backend call's
outcome and the current state to the new state together with the list of
observable effects it emits (toasts, navigations, backend calls, the
scheduled re-fetch).  Backend outcomes distinguish a result object carrying
an error (`err`, the supabase `{ data, error }` shape) from a thrown
exception (`exn`, handled by the `catch` block), because the source treats
the two differently.
-/

/-- Localized text with `en` and `es` keys, as in the `MenuItem` data model. -/
structure LocalizedText where
  en : String
  es : String
deriving DecidableEq, Repr

/-- The `MenuItem` record from `@/data/menuData`, as used by the page. -/
structure MenuItem where
  id : String
  name : LocalizedText
  description : LocalizedText
  price : String
  category : String
  isPopular : Bool
  isVegetarian : Bool
  ingredients : List String
  image : String
deriving DecidableEq, Repr

/-- A field subset of `MenuItem` (the TypeScript type of the `updates`
argument of `handleUpdateItem`): every field optional. -/
structure MenuItemPatch where
  id : Option String := none
  name : Option LocalizedText := none
  description : Option LocalizedText := none
  price : Option String := none
  category : Option String := none
  isPopular : Option Bool := none
  isVegetarian : Option Bool := none
  ingredients : Option (List String) := none
  image : Option String := none
deriving DecidableEq, Repr

/-- The object spread `{ ...item, ...updates }`: fields present in
`updates` override the corresponding fields of `item`. -/
def applyPatch (item : MenuItem) (p : MenuItemPatch) : MenuItem :=
  { id := p.id.getD item.id
    name := p.name.getD item.name
    description := p.description.getD item.description
    price := p.price.getD item.price
    category := p.category.getD item.category
    isPopular := p.isPopular.getD item.isPopular
    isVegetarian := p.isVegetarian.getD item.isVegetarian
    ingredients := p.ingredients.getD item.ingredients
    image := p.image.getD item.image }

/-- Toast variants used by the page (`variant: "destructive"` or default). -/
inductive ToastVariant where
  | normal
  | destructive
deriving DecidableEq, Repr

/-- A toast notification: variant, title and description. -/
structure Toast where
  variant : ToastVariant
  title : String
  description : String
deriving DecidableEq, Repr

/-- Observable effects a handler emits, in order. -/
inductive Effect where
  | toast (t : Toast)
  | navigate (route : String)
  | scheduleFetch
  | backendSelect
  | backendUpdate (id : String) (updates : MenuItemPatch)
  | backendDelete (id : String)
  | backendSignOut
  | backendSessionCheck
  | confirmPrompt (message : String)
deriving DecidableEq, Repr

/-- Whether an effect is a toast notification. -/
def Effect.isToast : Effect → Bool
  | Effect.toast _ => true
  | _ => false

/-- Component state: the four `useState` hooks of `AdminMenu`. -/
structure ComponentState where
  items : List MenuItem
  loading : Bool
  selectedItem : Option MenuItem
  isEditing : Bool
deriving DecidableEq, Repr

/-- `localStorage.getItem('dev_admin_authenticated') === 'true'`.  The
stored value is `Option String` (`getItem` returns string-or-null). -/
def devAuthenticated (store : Option String) : Bool :=
  store == some "true"

/-- First mock record (`id: '1'`, Lomo Saltado) from `fetchMenuItems`. -/
def mockItem1 : MenuItem :=
  { id := "1"
    name := { en := "Lomo Saltado", es := "Lomo Saltado" }
    description :=
      { en := "Stir-fried beef with onions, tomatoes and french fries"
        es := "Carne de res salteada con cebollas, tomates y papas fritas" }
    price := "$15.99"
    category := "mainDish"
    isPopular := true
    isVegetarian := false
    ingredients := ["beef", "onions", "tomatoes", "soy sauce", "french fries"]
    image := "/placeholder.svg" }

/-- Second mock record (`id: '2'`, Ceviche) from `fetchMenuItems`. -/
def mockItem2 : MenuItem :=
  { id := "2"
    name := { en := "Ceviche", es := "Ceviche" }
    description :=
      { en := "Fresh fish cured in citrus juices with onions and chili peppers"
        es := "Pescado fresco curado en jugos cítricos con cebollas y ajíes" }
    price := "$14.99"
    category := "coldDishes"
    isPopular := true
    isVegetarian := false
    ingredients := ["fish", "lime juice", "onions", "cilantro", "chili peppers"]
    image := "/placeholder.svg" }

/-- The fixed sample dataset (`mockData`) used in development mode. -/
def mockData : List MenuItem := [mockItem1, mockItem2]

/-- Outcome of the backend read `supabase.from('menu_items').select('*')`:
either a result object whose `data` may be null, a result object carrying
an `error` with a message, or a thrown exception with a message. -/
inductive ReadResult where
  | ok (data : Option (List MenuItem))
  | err (message : String)
  | exn (message : String)
deriving DecidableEq, Repr

/-- Toast shown when development mode substitutes the sample dataset. -/
def devModeToast : Toast :=
  { variant := ToastVariant.normal
    title := "Modo de desarrollo"
    description := "Usando datos de muestra para desarrollo" }

/-- Destructive toast of the `catch` block of `fetchMenuItems`. -/
def fetchErrorToast (msg : String) : Toast :=
  { variant := ToastVariant.destructive
    title := "Error al cargar elementos del menú"
    description := msg }

/-- The `fetchMenuItems` handler.  `try`: set `loading`, run the select;
if the result object carries an error then in development mode replace
`items` with `mockData` and toast, otherwise do nothing further; on
success set `items` to `data || []`.  `catch`: toast the error message
and, in development mode, set `items` to the empty literal (the array
whose comment says the mock data would go there).  `finally`: clear
`loading`. -/
def fetchMenuItems (store : Option String) (result : ReadResult)
    (s : ComponentState) : ComponentState × List Effect :=
  let s1 : ComponentState := { s with loading := true }
  let step : ComponentState × List Effect :=
    match result with
    | ReadResult.err _ =>
        if devAuthenticated store then
          ({ s1 with items := mockData },
           [Effect.backendSelect, Effect.toast devModeToast])
        else
          (s1, [Effect.backendSelect])
    | ReadResult.ok data =>
        ({ s1 with items := data.getD [] }, [Effect.backendSelect])
    | ReadResult.exn msg =>
        if devAuthenticated store then
          ({ s1 with items := [] },
           [Effect.backendSelect, Effect.toast (fetchErrorToast msg)])
        else
          (s1, [Effect.backendSelect, Effect.toast (fetchErrorToast msg)])
  ({ step.1 with loading := false }, step.2)

/-- A concrete prior state holding one previously displayed record. -/
def priorItem : MenuItem :=
  { id := "9"
    name := { en := "Tacu Tacu", es := "Tacu Tacu" }
    description := { en := "Rice and beans", es := "Arroz con frijoles" }
    price := "$9.99"
    category := "mainDish"
    isPopular := false
    isVegetarian := true
    ingredients := ["rice", "beans"]
    image := "/placeholder.svg" }

/-- A concrete component state with `priorItem` already displayed. -/
def priorState : ComponentState :=
  { items := [priorItem], loading := false, selectedItem := none, isEditing := false }

/-- C3: on a successful read the displayed collection equals exactly the
rows returned by the backend, in order, with no filtering; a null `data`
(no rows) yields the empty collection. -/
theorem fetch_success_items_eq_rows (store : Option String)
    (s : ComponentState) (rows : List MenuItem) :
    (fetchMenuItems store (ReadResult.ok (some rows)) s).1.items = rows ∧
    (fetchMenuItems store (ReadResult.ok none) s).1.items = [] := by
  constructor <;> rfl

/-- Outcome of a backend mutation (`update`, `delete`, `auth.signOut`):
a result object without error, a result object carrying an error message,
or a thrown exception with a message. -/
inductive MutResult where
  | ok
  | err (message : String)
  | exn (message : String)
deriving DecidableEq, Repr

/-- Success toast of `handleUpdateItem`. -/
def updateSuccessToast : Toast :=
  { variant := ToastVariant.normal
    title := "Éxito"
    description := "Elemento del menú actualizado correctamente" }

/-- Destructive toast of the `catch` block of `handleUpdateItem`. -/
def updateErrorToast (msg : String) : Toast :=
  { variant := ToastVariant.destructive
    title := "Error al actualizar el elemento del menú"
    description := msg }

/-- The `handleUpdateItem` handler.  `try`: set `loading`, run the backend
update filtered by `id`; if the result carries an error then in
development mode apply the patch to every local record whose `id`
matches (simulated success), otherwise rethrow; every non-thrown path
then toasts success, schedules `fetchMenuItems`, and closes the modal.
`catch`: toast the error message, leaving the modal state untouched.
`finally`: clear `loading`. -/
def handleUpdateItem (store : Option String) (result : MutResult)
    (id : String) (updates : MenuItemPatch) (s : ComponentState) :
    ComponentState × List Effect :=
  let s1 : ComponentState := { s with loading := true }
  match result with
  | MutResult.ok =>
      ({ s1 with isEditing := false, selectedItem := none, loading := false },
       [Effect.backendUpdate id updates, Effect.toast updateSuccessToast,
        Effect.scheduleFetch])
  | MutResult.err msg =>
      if devAuthenticated store then
        ({ s1 with
            items := s1.items.map
              (fun item => if item.id == id then applyPatch item updates else item),
            isEditing := false, selectedItem := none, loading := false },
         [Effect.backendUpdate id updates, Effect.toast updateSuccessToast,
          Effect.scheduleFetch])
      else
        ({ s1 with loading := false },
         [Effect.backendUpdate id updates, Effect.toast (updateErrorToast msg)])
  | MutResult.exn msg =>
      ({ s1 with loading := false },
       [Effect.backendUpdate id updates, Effect.toast (updateErrorToast msg)])

/-- The `confirm` prompt message of `handleDeleteItem`. -/
def deleteConfirmMessage : String :=
  "¿Estás seguro de que deseas eliminar este elemento?"

/-- Success toast of `handleDeleteItem`. -/
def deleteSuccessToast : Toast :=
  { variant := ToastVariant.normal
    title := "Éxito"
    description := "Elemento del menú eliminado correctamente" }

/-- Destructive toast of the `catch` block of `handleDeleteItem`. -/
def deleteErrorToast (msg : String) : Toast :=
  { variant := ToastVariant.destructive
    title := "Error al eliminar el elemento del menú"
    description := msg }

/-- The `handleDeleteItem` handler.  First asks `confirm(...)`; if
declined it returns immediately.  Otherwise `try`: set `loading`, run the
backend delete filtered by `id`; if the result carries an error then in
development mode remove the matching records from local state (simulated
success), otherwise rethrow; every non-thrown path then toasts success
and schedules `fetchMenuItems`.  `catch`: toast the error message.
`finally`: clear `loading`. -/
def handleDeleteItem (store : Option String) (confirmed : Bool)
    (result : MutResult) (id : String) (s : ComponentState) :
    ComponentState × List Effect :=
  if !confirmed then (s, [Effect.confirmPrompt deleteConfirmMessage])
  else
    let s1 : ComponentState := { s with loading := true }
    let step : ComponentState × List Effect :=
      match result with
      | MutResult.ok =>
          ({ s1 with loading := false },
           [Effect.backendDelete id, Effect.toast deleteSuccessToast,
            Effect.scheduleFetch])
      | MutResult.err msg =>
          if devAuthenticated store then
            ({ s1 with
                items := s1.items.filter (fun item => item.id != id),
                loading := false },
             [Effect.backendDelete id, Effect.toast deleteSuccessToast,
              Effect.scheduleFetch])
          else
            ({ s1 with loading := false },
             [Effect.backendDelete id, Effect.toast (deleteErrorToast msg)])
      | MutResult.exn msg =>
          ({ s1 with loading := false },
           [Effect.backendDelete id, Effect.toast (deleteErrorToast msg)])
    (step.1, Effect.confirmPrompt deleteConfirmMessage :: step.2)

/-- Toast shown by `signOut` on both its paths. -/
def sessionClosedToast : Toast :=
  { variant := ToastVariant.normal
    title := "Sesión cerrada"
    description := "Ha cerrado sesión correctamente" }

/-- The `signOut` handler.  `try`: backend sign-out; a result error is
rethrown.  Both the success path and the `catch` block then remove the
`dev_admin_authenticated` key from local storage, toast "Sesión cerrada"
and navigate to `/admin`.  Returns the new stored value alongside the
effects (the component state is untouched). -/
def signOut (_store : Option String) (result : MutResult) :
    Option String × List Effect :=
  match result with
  | MutResult.ok =>
      (none, [Effect.backendSignOut, Effect.toast sessionClosedToast,
              Effect.navigate "/admin"])
  | MutResult.err _ =>
      (none, [Effect.backendSignOut, Effect.toast sessionClosedToast,
              Effect.navigate "/admin"])
  | MutResult.exn _ =>
      (none, [Effect.backendSignOut, Effect.toast sessionClosedToast,
              Effect.navigate "/admin"])

/-- Outcome of `isAuthenticated()`: a boolean, or a thrown exception. -/
inductive AuthResult where
  | ok (authenticated : Bool)
  | exn (message : String)
deriving DecidableEq, Repr

/-- Destructive toast of the unauthenticated branch of `checkAuth`. -/
def invalidSessionToast : Toast :=
  { variant := ToastVariant.destructive
    title := "Sesión no válida"
    description := "Por favor, inicie sesión para acceder al panel de administración" }

/-- The `checkAuth` session guard.  `try`: ask the backend whether a
session exists; if it returns false and the development flag is not set,
toast and navigate to `/admin`.  `catch`: if the development flag is not
set, navigate to `/admin` (no toast). -/
def checkAuth (store : Option String) (result : AuthResult) : List Effect :=
  match result with
  | AuthResult.ok authenticated =>
      if !authenticated && !(devAuthenticated store) then
        [Effect.backendSessionCheck, Effect.toast invalidSessionToast,
         Effect.navigate "/admin"]
      else
        [Effect.backendSessionCheck]
  | AuthResult.exn _ =>
      if !(devAuthenticated store) then
        [Effect.backendSessionCheck, Effect.navigate "/admin"]
      else
        [Effect.backendSessionCheck]

/-- Actions performed by the mount effect (`useEffect` with `[]` deps)
and by its cleanup function. -/
inductive MountAction where
  | runCheckAuth
  | runFetchMenuItems
  | openChannel (name : String) (table : String)
  | removeChannelOf (name : String)
deriving DecidableEq, Repr

/-- The body of the mount effect: `checkAuth()`, `fetchMenuItems()`, then
one channel subscription named `menu_changes` on table `menu_items`. -/
def mountActions : List MountAction :=
  [MountAction.runCheckAuth, MountAction.runFetchMenuItems,
   MountAction.openChannel "menu_changes" "menu_items"]

/-- The cleanup function returned by the mount effect:
`supabase.removeChannel(subscription)` on the one subscription. -/
def cleanupActions : List MountAction :=
  [MountAction.removeChannelOf "menu_changes"]

/-- The push-channel subscription: whether it is still active. -/
structure Subscription where
  active : Bool
deriving DecidableEq, Repr

/-- The subscription as created by `.subscribe()` on mount. -/
def subscribeChannel : Subscription := { active := true }

/-- `supabase.removeChannel`: releases the subscription. -/
def removeChannel (c : Subscription) : Subscription :=
  { c with active := false }

/-- A row-level change event on the menu table. -/
inductive ChannelEvent where
  | insert
  | update
  | delete
deriving DecidableEq, Repr

/-- The `postgres_changes` callback registered with `event: '*'`:
for any event it re-runs `fetchMenuItems`. -/
def channelHandler (_e : ChannelEvent) : List Effect :=
  [Effect.scheduleFetch]

/-- Delivery contract of the backend channel client: an event reaches the
registered callback only while the subscription is active; after
`removeChannel` nothing is delivered. -/
def deliverEvent (c : Subscription) (e : ChannelEvent) : List Effect :=
  if c.active then channelHandler e else []

/-- A concrete development-mode state whose items are the sample dataset. -/
def devState : ComponentState :=
  { items := mockData, loading := false, selectedItem := none, isEditing := false }

/-- Patch containing only a new price. -/
def pricePatch (p : String) : MenuItemPatch := { price := some p }

/-- C1 counterexample: a load in which the backend read fails via a result
object carrying an error, with the development flag unset, leaves the items
unchanged but emits no toast at all, so no error notification containing
the backend's message is shown, contrary to the claim. -/
theorem fetch_err_no_dev_emits_no_toast :
    (fetchMenuItems none (ReadResult.err "boom") priorState).1.items
      = priorState.items ∧
    List.filter Effect.isToast
      (fetchMenuItems none (ReadResult.err "boom") priorState).2 = [] := by
  constructor <;> rfl

/-- C1 (amended): when the backend read fails and the development flag is
not set, the items collection is left unchanged in both failure modes, and
an error notification containing the backend's message is shown only when
the read fails by throwing; a failure reported as an error result emits no
notification. -/
theorem fetch_failure_no_dev_items_unchanged (store : Option String)
    (s : ComponentState) (msg : String) (h : devAuthenticated store = false) :
    (fetchMenuItems store (ReadResult.err msg) s).1.items = s.items ∧
    List.filter Effect.isToast (fetchMenuItems store (ReadResult.err msg) s).2 = [] ∧
    (fetchMenuItems store (ReadResult.exn msg) s).1.items = s.items ∧
    Effect.toast (fetchErrorToast msg)
      ∈ (fetchMenuItems store (ReadResult.exn msg) s).2 := by
  simp [fetchMenuItems, h, Effect.isToast, List.filter]

/-- C1 witness: the amended statement at a concrete failing load with the
development flag absent. -/
theorem fetch_failure_no_dev_items_unchanged_witness :
    devAuthenticated none = false ∧
    ((fetchMenuItems none (ReadResult.err "boom") priorState).1.items
        = priorState.items ∧
      List.filter Effect.isToast
        (fetchMenuItems none (ReadResult.err "boom") priorState).2 = [] ∧
      (fetchMenuItems none (ReadResult.exn "boom") priorState).1.items
        = priorState.items ∧
      Effect.toast (fetchErrorToast "boom")
        ∈ (fetchMenuItems none (ReadResult.exn "boom") priorState).2) :=
  ⟨rfl, fetch_failure_no_dev_items_unchanged none priorState "boom" rfl⟩

/-- C2 (code-bug evidence): when the backend read fails by throwing and the
development flag is set, the handler sets the items to the empty list (the
array literal in the catch block is empty despite its comment saying the
mock data would go there) and the only toast shown is the destructive
error toast, not the informational one; the 2-record sample dataset is
substituted only when the failure is reported as an error result. -/
theorem fetch_exn_dev_sets_empty_items :
    (fetchMenuItems (some "true") (ReadResult.exn "network down") priorState).1.items
      = [] ∧
    mockData.length = 2 ∧
    List.filter Effect.isToast
        (fetchMenuItems (some "true") (ReadResult.exn "network down") priorState).2
      = [Effect.toast (fetchErrorToast "network down")] ∧
    (fetchErrorToast "network down").variant = ToastVariant.destructive ∧
    (fetchMenuItems (some "true") (ReadResult.err "network down") priorState).1.items
      = mockData := by
  refine ⟨rfl, rfl, rfl, rfl, rfl⟩

/-- C4: on a backend update whose result carries an error with the
development flag set, the patch is applied in place to the local records
whose id matches (simulated success, no backend round-trip needed for the
change); patching only the price yields a record carrying the new price
under the same id. -/
theorem update_err_dev_applies_patch_locally (store : Option String)
    (s : ComponentState) (id p msg : String) (updates : MenuItemPatch)
    (item : MenuItem) (h : devAuthenticated store = true) :
    (handleUpdateItem store (MutResult.err msg) id updates s).1.items
      = s.items.map (fun it => if it.id == id then applyPatch it updates else it) ∧
    (applyPatch item (pricePatch p)).price = p ∧
    (applyPatch item (pricePatch p)).id = item.id := by
  refine ⟨?_, rfl, rfl⟩
  simp [handleUpdateItem, h]

/-- C4 witness: the simulated update at id `1` with price `$16.99` on the
sample dataset, development flag set. -/
theorem update_err_dev_applies_patch_locally_witness :
    devAuthenticated (some "true") = true ∧
    ((handleUpdateItem (some "true") (MutResult.err "e") "1"
          (pricePatch "$16.99") devState).1.items
        = devState.items.map
            (fun it => if it.id == "1" then applyPatch it (pricePatch "$16.99") else it) ∧
      (applyPatch mockItem1 (pricePatch "$16.99")).price = "$16.99" ∧
      (applyPatch mockItem1 (pricePatch "$16.99")).id = mockItem1.id) :=
  ⟨rfl, update_err_dev_applies_patch_locally (some "true") devState "1" "$16.99" "e"
      (pricePatch "$16.99") mockItem1 rfl⟩

/-- C5: a propagated update error (result error with the development flag
unset) toasts the failure message and leaves the edit-modal state
untouched; every non-thrown path (success under any flag, or a result
error recovered in development mode) toasts success, schedules the loader
re-run, and closes the modal. -/
theorem update_error_propagation_and_success_paths
    (store devOff devOn : Option String) (s : ComponentState)
    (id msg : String) (updates : MenuItemPatch)
    (hOff : devAuthenticated devOff = false)
    (hOn : devAuthenticated devOn = true) :
    (Effect.toast (updateErrorToast msg)
        ∈ (handleUpdateItem devOff (MutResult.err msg) id updates s).2 ∧
      (handleUpdateItem devOff (MutResult.err msg) id updates s).1.isEditing
        = s.isEditing ∧
      (handleUpdateItem devOff (MutResult.err msg) id updates s).1.selectedItem
        = s.selectedItem) ∧
    (Effect.toast updateSuccessToast
        ∈ (handleUpdateItem store MutResult.ok id updates s).2 ∧
      Effect.scheduleFetch ∈ (handleUpdateItem store MutResult.ok id updates s).2 ∧
      (handleUpdateItem store MutResult.ok id updates s).1.isEditing = false ∧
      (handleUpdateItem store MutResult.ok id updates s).1.selectedItem = none) ∧
    (Effect.toast updateSuccessToast
        ∈ (handleUpdateItem devOn (MutResult.err msg) id updates s).2 ∧
      Effect.scheduleFetch ∈ (handleUpdateItem devOn (MutResult.err msg) id updates s).2 ∧
      (handleUpdateItem devOn (MutResult.err msg) id updates s).1.isEditing = false ∧
      (handleUpdateItem devOn (MutResult.err msg) id updates s).1.selectedItem = none) := by
  simp [handleUpdateItem, hOff, hOn]

/-- C5 witness: the statement at a concrete update of the prior state with
the flag absent (propagated error) and present (simulated success). -/
theorem update_error_propagation_and_success_paths_witness :
    devAuthenticated none = false ∧
    devAuthenticated (some "true") = true ∧
    ((Effect.toast (updateErrorToast "e")
        ∈ (handleUpdateItem none (MutResult.err "e") "9" (pricePatch "$1") priorState).2 ∧
      (handleUpdateItem none (MutResult.err "e") "9" (pricePatch "$1") priorState).1.isEditing
        = priorState.isEditing ∧
      (handleUpdateItem none (MutResult.err "e") "9" (pricePatch "$1") priorState).1.selectedItem
        = priorState.selectedItem) ∧
    (Effect.toast updateSuccessToast
        ∈ (handleUpdateItem none MutResult.ok "9" (pricePatch "$1") priorState).2 ∧
      Effect.scheduleFetch
        ∈ (handleUpdateItem none MutResult.ok "9" (pricePatch "$1") priorState).2 ∧
      (handleUpdateItem none MutResult.ok "9" (pricePatch "$1") priorState).1.isEditing = false ∧
      (handleUpdateItem none MutResult.ok "9" (pricePatch "$1") priorState).1.selectedItem
        = none) ∧
    (Effect.toast updateSuccessToast
        ∈ (handleUpdateItem (some "true") (MutResult.err "e") "9" (pricePatch "$1") priorState).2 ∧
      Effect.scheduleFetch
        ∈ (handleUpdateItem (some "true") (MutResult.err "e") "9" (pricePatch "$1") priorState).2 ∧
      (handleUpdateItem (some "true") (MutResult.err "e") "9" (pricePatch "$1") priorState).1.isEditing
        = false ∧
      (handleUpdateItem (some "true") (MutResult.err "e") "9" (pricePatch "$1") priorState).1.selectedItem
        = none)) :=
  ⟨rfl, rfl,
    update_error_propagation_and_success_paths none none (some "true") priorState
      "9" "e" (pricePatch "$1") rfl rfl⟩

/-- C6: every delete first issues the interactive confirmation prompt, and
a declined confirmation makes the handler a no-op: the state is returned
unchanged and the only effect is the prompt itself, so in particular no
backend call is made. -/
theorem delete_requires_confirmation (store : Option String) (confirmed : Bool)
    (result : MutResult) (id : String) (s : ComponentState) :
    Effect.confirmPrompt deleteConfirmMessage
      ∈ (handleDeleteItem store confirmed result id s).2 ∧
    handleDeleteItem store false result id s
      = (s, [Effect.confirmPrompt deleteConfirmMessage]) := by
  refine ⟨?_, rfl⟩
  cases confirmed
  · exact List.mem_cons_self _ _
  · exact List.mem_cons_self _ _

/-- C7: sign-out, whatever the backend outcome, leaves the stored
development flag removed, shows the session-closed toast, and navigates to
the login route. -/
theorem signout_clears_flag_toasts_and_redirects (store : Option String)
    (result : MutResult) :
    (signOut store result).1 = none ∧
    Effect.toast sessionClosedToast ∈ (signOut store result).2 ∧
    Effect.navigate "/admin" ∈ (signOut store result).2 := by
  cases result <;> simp [signOut]

/-- C8: the session guard redirects to the login route exactly when the
backend check does not authenticate (returns false or throws) and the
development flag is unset — a successful check never redirects — and the
mount effect runs `checkAuth` exactly once. -/
theorem checkauth_redirects_iff_unauthorized (store : Option String)
    (msg : String) :
    (checkAuth store (AuthResult.ok true)).count (Effect.navigate "/admin") = 0 ∧
    (checkAuth store (AuthResult.ok false)).count (Effect.navigate "/admin")
      = (if devAuthenticated store then 0 else 1) ∧
    (checkAuth store (AuthResult.exn msg)).count (Effect.navigate "/admin")
      = (if devAuthenticated store then 0 else 1) ∧
    mountActions.count MountAction.runCheckAuth = 1 := by
  by_cases h : devAuthenticated store <;> simp [checkAuth, h] <;> decide

/-- C9: the mount effect opens exactly one channel subscription on the
menu table; every insert/update/delete event delivered on the active
subscription re-runs the loader, and nothing else; the cleanup releases
exactly that one subscription, and an event delivered after teardown
triggers nothing. -/
theorem channel_lifecycle (e : ChannelEvent) :
    mountActions.count (MountAction.openChannel "menu_changes" "menu_items") = 1 ∧
    deliverEvent subscribeChannel e = [Effect.scheduleFetch] ∧
    cleanupActions = [MountAction.removeChannelOf "menu_changes"] ∧
    deliverEvent (removeChannel subscribeChannel) e = [] := by
  exact ⟨by decide, rfl, rfl, rfl⟩

/-- C10: the loader, the update handler and a confirmed delete always end
with `loading = false` (their finally blocks), and a declined delete
returns the state unchanged, so no handler leaves the component stuck in
the loading state. -/
theorem handlers_reset_loading (store : Option String) (s : ComponentState)
    (rr : ReadResult) (mr : MutResult) (id : String)
    (updates : MenuItemPatch) :
    (fetchMenuItems store rr s).1.loading = false ∧
    (handleUpdateItem store mr id updates s).1.loading = false ∧
    (handleDeleteItem store true mr id s).1.loading = false ∧
    (handleDeleteItem store false mr id s).1 = s := by
  refine ⟨rfl, ?_, ?_, rfl⟩
  · cases mr with
    | ok => rfl
    | err m => by_cases h : devAuthenticated store <;> simp [handleUpdateItem, h]
    | exn m => rfl
  · cases mr with
    | ok => rfl
    | err m => by_cases h : devAuthenticated store <;> simp [handleDeleteItem, h]
    | exn m => rfl
